import Mathlib

/-!
Verification development for the voice-memo writing assistant
(`writing_assistant.py`): a shallow embedding of the context-aggregation
and multi-turn conversation engine, together with theorems settling the
specification claims.

Conventions of the embedding:
* The filesystem (transcripts, per-kind analysis JSON files, the glob of
  `memo_*.txt`) is modelled by an explicit `Store` value.
* JSON values are modelled by the inductive `Json`; a file read is
  `Option (Except Unit Json)`: `none` = file absent (FileNotFoundError),
  `some (.error ())` = file present but `json.load` raises,
  `some (.ok j)` = parses to `j`.
* Python exceptions that escape a function are modelled by `Except Unit`.
* `datetime.now()` renderings are threaded as explicit `String` arguments.
* Python float similarity scores are modelled as exact rationals `ℚ`.
-/

/-- JSON values, as produced by `json.load` / consumed by the assistant. -/
inductive Json where
  | null : Json
  | bool : Bool → Json
  | num : Int → Json
  | str : String → Json
  | arr : List Json → Json
  | obj : List (String × Json) → Json

/-- Python `d.get(key, default)` on a parsed JSON object: association-list
lookup on the object fields, the default when the key is absent (and, as a
modelling convention, when the value is not an object at all). -/
def Json.getD (j : Json) (key : String) (d : Json) : Json :=
  match j with
  | .obj kvs => (kvs.lookup key).getD d
  | _ => d

/-- Python `len()` of a JSON value (list/dict/string lengths; 0 otherwise). -/
def Json.pyLen : Json → Nat
  | .arr xs => xs.length
  | .obj kvs => kvs.length
  | .str s => s.length
  | _ => 0

mutual

/-- Rendering of a JSON value into prompt text (models `json.dumps` /
`str()` interpolation in the f-string prompts; the exact whitespace of
`indent=2` is not reproduced — no claim depends on it). -/
def Json.dump : Json → String
  | .null => "null"
  | .bool b => if b then "true" else "false"
  | .num n => toString n
  | .str s => "\x22" ++ s ++ "\x22"
  | .arr xs => "[" ++ Json.dumpList xs ++ "]"
  | .obj kvs => "\x7b" ++ Json.dumpFields kvs ++ "\x7d"

def Json.dumpList : List Json → String
  | [] => ""
  | [x] => Json.dump x
  | x :: y :: xs => Json.dump x ++ ", " ++ Json.dumpList (y :: xs)

def Json.dumpFields : List (String × Json) → String
  | [] => ""
  | [(k, v)] => "\x22" ++ k ++ "\x22: " ++ Json.dump v
  | (k, v) :: kv :: kvs => "\x22" ++ k ++ "\x22: " ++ Json.dump v ++ ", " ++ Json.dumpFields (kv :: kvs)

end

/-- The on-disk artifact store visible to the assistant:
`transcript id` is the content of `<root>/<id>.txt` (`none` = absent);
`analysisFile kind id` is the read of `<root>/analysis/<kind>/<id>_<kind>.json`;
`memoFiles` is the enumeration order of `glob("memo_*.txt")` as a list of
memo ids (Python's `Path.glob` returns entries in arbitrary, not sorted,
order, so this list is an arbitrary parameter of the model). -/
structure Store where
  transcript : String → Option String
  analysisFile : String → String → Option (Except Unit Json)
  memoFiles : List String

/-! ### Python string primitives

Structural models (over the character list) of the Python string methods
the assistant uses: `.lower()`, `.strip()` and slicing `[:n]`. ASCII case
folding and whitespace stand in for Python's Unicode versions. -/

/-- Python `s.lower()`. -/
def pyLower (s : String) : String := String.mk (s.data.map Char.toLower)

/-- Python `s.strip()`: whitespace removed from both ends. -/
def pyStrip (s : String) : String :=
  String.mk (((s.data.dropWhile Char.isWhitespace).reverse.dropWhile
    Char.isWhitespace).reverse)

/-- Python `s[:n]`. -/
def pyTake (s : String) (n : Nat) : String := String.mk (s.data.take n)

/-! ### Tokenization for the similarity finder

`re.findall(r'\b\w{4,}\b', text.lower())`: the maximal runs of word
characters of the lowercased text, kept when their length is at least 4.
(`\w` is modelled as ASCII alphanumerics plus underscore.) -/

def isWordChar (c : Char) : Bool := c.isAlphanum || c = '_'

/-- Maximal runs of word characters in a character list; `cur` is the
current run being accumulated, in reverse. -/
def wordRunsAux : List Char → List Char → List (List Char)
  | [], cur => if cur.isEmpty then [] else [cur.reverse]
  | c :: cs, cur =>
    if isWordChar c then wordRunsAux cs (c :: cur)
    else if cur.isEmpty then wordRunsAux cs []
    else cur.reverse :: wordRunsAux cs []

def wordRuns (s : String) : List String :=
  (wordRunsAux s.toList []).map (fun l => String.mk l)

/-- The set of distinct lowercase words of length ≥ 4 of a text
(`set(re.findall(r'\b\w{4,}\b', text.lower()))`). -/
def tokenSet (s : String) : Finset String :=
  ((wordRuns (pyLower s)).filter (fun w => 4 ≤ w.length)).toFinset

/-! ### Artifact store reads (`load_memo_context`) -/

/-- One analysis read inside `load_memo_context`: only `FileNotFoundError`
is caught (yielding the empty dict `{}`); a present-but-unparsable file
re-raises the `json.load` exception. -/
def loadAnalysis (st : Store) (kind memo_id : String) : Except Unit Json :=
  match st.analysisFile kind memo_id with
  | none => .ok (Json.obj [])
  | some (.error _) => .error ()
  | some (.ok j) => .ok j

/-- The `context['analyses']` dict: one parsed record per analysis kind. -/
structure AnalysisSet where
  writing : Json
  projects : Json
  tasks : Json
  personal : Json

/-- The value built by `load_memo_context`. -/
structure MemoContext where
  memo_id : String
  transcript : String
  analyses : AnalysisSet

/-- `load_memo_context(memo_id)`: `.ok none` models the Python `None`
return when the transcript is absent; `.error ()` models an uncaught
exception (an analysis file present but unparsable). Analyses are read in
the source order `writing, projects, tasks, personal`. -/
def load_memo_context (st : Store) (memo_id : String) :
    Except Unit (Option MemoContext) :=
  match st.transcript memo_id with
  | none => .ok none
  | some t => do
    let w ← loadAnalysis st "writing" memo_id
    let p ← loadAnalysis st "projects" memo_id
    let ta ← loadAnalysis st "tasks" memo_id
    let pe ← loadAnalysis st "personal" memo_id
    return some ⟨memo_id, pyStrip t, ⟨w, p, ta, pe⟩⟩

/-! ### Similarity finder (`find_related_memos`) -/

/-- One ranked candidate: `{'memo_id': ..., 'similarity': ..., 'context': ...}`. -/
structure Scored where
  memo_id : String
  similarity : ℚ
  context : Option MemoContext

/-- `intersection / union if union > 0 else 0` on the two token sets. -/
def jaccard (a b : Finset String) : ℚ :=
  if 0 < (a ∪ b).card then ((a ∩ b).card : ℚ) / ((a ∪ b).card : ℚ) else 0

/-- The candidate list built by the `for memo_file in memo_files` scan, in
the enumeration order of `memoFiles`. A candidate is kept when it is not
the target, its file is readable, both token sets are nonempty, the
similarity exceeds 0.1, and loading its full context does not raise
(any exception inside the loop body is swallowed by `continue`). -/
def candidateScores (st : Store) (memo_id : String) (targetWords : Finset String) :
    List Scored :=
  st.memoFiles.filterMap (fun other_id =>
    if other_id = memo_id then none
    else
      match st.transcript other_id with
      | none => none
      | some txt =>
        let otherWords := tokenSet txt
        if 0 < targetWords.card ∧ 0 < otherWords.card then
          let sim := jaccard targetWords otherWords
          if 1 / 10 < sim then
            match load_memo_context st other_id with
            | .error _ => none
            | .ok c => some ⟨other_id, sim, c⟩
          else none
        else none)

/-- Insert a candidate into a descending-sorted list, *after* every
already-present candidate of equal similarity: combined with left-to-right
insertion this is exactly the stable descending sort of Python's
`list.sort(key=lambda x: x['similarity'], reverse=True)`. -/
def insertScoredDesc (x : Scored) : List Scored → List Scored
  | [] => [x]
  | y :: ys =>
    if y.similarity < x.similarity then x :: y :: ys
    else y :: insertScoredDesc x ys

/-- Stable sort of the candidate list, descending by similarity. -/
def sortScoredDesc (l : List Scored) : List Scored :=
  l.foldl (fun acc x => insertScoredDesc x acc) []

/-- `find_related_memos(memo_id, max_related=3)`: score every other memo
file, keep those above the 0.1 threshold, stable-sort descending by
similarity and take the first `max_related`. Failure to load the target
context returns `[]`; an exception from the target load itself propagates. -/
def find_related_memos (st : Store) (memo_id : String) (max_related : Nat := 3) :
    Except Unit (List Scored) := do
  let tc? ← load_memo_context st memo_id
  match tc? with
  | none => return []
  | some tc =>
    let targetWords := tokenSet tc.transcript
    let related_scores := candidateScores st memo_id targetWords
    return (sortScoredDesc related_scores).take max_related

/-! ### Context builder (`build_interview_context`) -/

/-- The aggregate interview context. Note the source reads the keys
`WRITING_IDEAS` and `INTERVIEW_QUESTIONS` (uppercase) out of the writing
analysis record, defaulting to `[]`. -/
structure InterviewContext where
  main_memo : MemoContext
  related_memos : List Scored
  writing_ideas : Json
  initial_questions : Json
  projects : Json
  tasks : Json
  personal_insights : Json

/-- `build_interview_context(memo_id)`. -/
def build_interview_context (st : Store) (memo_id : String) :
    Except Unit (Option InterviewContext) := do
  let mc? ← load_memo_context st memo_id
  match mc? with
  | none => return none
  | some mc =>
    let related ← find_related_memos st memo_id
    return some
      { main_memo := mc
        related_memos := related
        writing_ideas := mc.analyses.writing.getD "WRITING_IDEAS" (Json.arr [])
        initial_questions := mc.analyses.writing.getD "INTERVIEW_QUESTIONS" (Json.arr [])
        projects := mc.analyses.projects
        tasks := mc.analyses.tasks
        personal_insights := mc.analyses.personal }

/-! ### Conversation state machine (`ConversationState`) -/

/-- One question/answer exchange, as appended by `add_exchange`. -/
structure Exchange where
  question : String
  response : String
  topic : Option String
  timestamp : String
deriving DecidableEq, Repr

/-- In-memory conversation state. `explored_topics` is a Python `set`. -/
structure ConversationState where
  memo_id : String
  context : InterviewContext
  conversation_history : List Exchange
  explored_topics : Finset String
  current_focus : Option String
  session_id : String

/-- `ConversationState(memo_id, context)`: fresh state; `session_id` is
`datetime.now().strftime("%Y%m%d_%H%M%S")`, passed in as `nowStamp`. -/
def ConversationState.create (memo_id : String) (ctx : InterviewContext)
    (nowStamp : String) : ConversationState :=
  { memo_id := memo_id
    context := ctx
    conversation_history := []
    explored_topics := ∅
    current_focus := none
    session_id := nowStamp }

/-- `add_exchange(question, response, topic=None)`: append one exchange;
the topic joins `explored_topics` only when truthy (not `None`, not `""`). -/
def ConversationState.add_exchange (s : ConversationState)
    (question response : String) (topic : Option String) (now : String) :
    ConversationState :=
  { s with
    conversation_history := s.conversation_history ++ [⟨question, response, topic, now⟩]
    explored_topics :=
      match topic with
      | some t => if t = "" then s.explored_topics else insert t s.explored_topics
      | none => s.explored_topics }

/-- `get_conversation_summary()`: purely lexical rendering of the last 3
exchanges, each question/answer cut to its first 100 characters. No model
call is involved (the function has no generation capability argument). -/
def ConversationState.get_conversation_summary (s : ConversationState) : String :=
  if s.conversation_history.isEmpty then "No conversation yet."
  else
    let hist := s.conversation_history
    let lastThree := hist.drop (hist.length - 3)
    "Conversation about " ++ s.memo_id ++ " (" ++ toString hist.length ++
      " exchanges):\n" ++
      String.join (lastThree.enum.map (fun ie =>
        toString (ie.1 + 1) ++ ". Q: " ++ pyTake ie.2.question 100 ++ "...\n" ++
          "   A: " ++ pyTake ie.2.response 100 ++ "...\n"))

/-- The durable projection written by `save_session` (the JSON session
file content). -/
structure SessionRecord where
  memo_id : String
  session_id : String
  timestamp : String
  conversation_history : List Exchange
  explored_topics : List String
  summary_main_memo : String
  summary_related_ids : List String
  summary_ideas_count : Nat

/-- The session artifact path inside `writing_projects/`:
`f"{memo_id}_interactive_interview_{session_id}.json"` — note it contains
no save timestamp. -/
def sessionFileName (memo_id session_id : String) : String :=
  memo_id ++ "_interactive_interview_" ++ session_id ++ ".json"

/-- `save_session()`: the artifact path and the record written to it at
save time `nowIso` (`datetime.now().isoformat()`). Python's
`list(self.explored_topics)` enumerates the set in an unspecified order;
the model picks the lexicographically sorted enumeration. -/
def ConversationState.save_session (s : ConversationState) (nowIso : String) :
    String × SessionRecord :=
  (sessionFileName s.memo_id s.session_id,
    { memo_id := s.memo_id
      session_id := s.session_id
      timestamp := nowIso
      conversation_history := s.conversation_history
      explored_topics := s.explored_topics.sort (· ≤ ·)
      summary_main_memo := s.memo_id
      summary_related_ids := s.context.related_memos.map (·.memo_id)
      summary_ideas_count := s.context.writing_ideas.pyLen })

/-- The state rebuilt inside `resume_interview_session`: fresh
`ConversationState(memo_id, context)` whose `session_id`,
`conversation_history` and `explored_topics` are then overwritten verbatim
from the stored record (`set(...)` of the stored topic list). -/
def restoreState (rec : SessionRecord) (ctx : InterviewContext) : ConversationState :=
  { memo_id := rec.memo_id
    context := ctx
    conversation_history := rec.conversation_history
    explored_topics := rec.explored_topics.toFinset
    current_focus := none
    session_id := rec.session_id }

/-! ### Prompt assembly -/

/-- Python `str()` of a list of strings, used in the f-string prompts. -/
def pyStrList (xs : List String) : String :=
  "[" ++ String.intercalate ", " (xs.map (fun s => "\x27" ++ s ++ "\x27")) ++ "]"

/-- One line of the RELATED CONTENT block:
`f"- {r['memo_id']}: {r['context']['transcript'][:200]}..."` (a `None`
context, which would raise in Python, is rendered empty in the model —
never exercised by the claims). -/
def relatedLine (r : Scored) : String :=
  "- " ++ r.memo_id ++ ": " ++
    (match r.context with | some c => pyTake c.transcript 200 | none => "") ++ "..."

/-- The opening prompt of `interactive_interview_mode`. -/
def openingPrompt (ctx : InterviewContext) : String :=
  "You are an AI writing coach conducting an interview to help develop writing ideas from voice memos.\n\nMEMO TRANSCRIPT:\n" ++
    ctx.main_memo.transcript ++
    "\n\nEXTRACTED WRITING IDEAS:\n" ++ ctx.writing_ideas.dump ++
    "\n\nINITIAL SUGGESTED QUESTIONS:\n" ++ ctx.initial_questions.dump ++
    "\n\nRELATED CONTENT:\n" ++
    String.intercalate "\n" (ctx.related_memos.map relatedLine) ++
    "\n\nGenerate an engaging opening question that:\n1. References specific content from the transcript\n2. Builds on the extracted writing ideas\n3. Is open-ended and thought-provoking\n4. Encourages the writer to expand on their ideas\n\nKeep it conversational and specific to their content. Don\x27t be generic.\n\nOPENING QUESTION:"

/-- The follow-up prompt (identical text in the fresh and resumed loops). -/
def followupPrompt (ctx : InterviewContext) (conv : ConversationState)
    (user_response : String) : String :=
  "You are an AI writing coach having a conversation with a writer about their voice memo ideas.\n\nORIGINAL MEMO TRANSCRIPT:\n" ++
    ctx.main_memo.transcript ++
    "\n\nCONVERSATION SO FAR:\n" ++ conv.get_conversation_summary ++
    "\n\nWRITER\x27S LATEST RESPONSE:\n\x22" ++ user_response ++
    "\x22\n\nAVAILABLE CONTEXT:\n- Writing ideas: " ++ ctx.writing_ideas.dump ++
    "\n- Related memos: " ++ pyStrList (ctx.related_memos.map (·.memo_id)) ++
    "\n- Projects mentioned: " ++ ctx.projects.dump ++
    "\n\nGenerate a thoughtful follow-up question that:\n1. Builds directly on their latest response\n2. Helps them go deeper or explore new angles\n3. References specific details from their content when relevant\n4. Guides them toward actionable writing directions\n5. Is conversational and encouraging\n\nIf they seem to have exhausted a topic, pivot to exploring a different writing idea or connect to related content.\n\nFOLLOW-UP QUESTION:"

/-- The resumption prompt of `resume_interview_session`. -/
def resumptionPrompt (ctx : InterviewContext) (conv : ConversationState) : String :=
  "You are an AI writing coach resuming an interview conversation.\n\nORIGINAL MEMO: " ++
    ctx.main_memo.transcript ++
    "\n\nCONVERSATION HISTORY:\n" ++ conv.get_conversation_summary ++
    "\n\nThe conversation was interrupted. Generate a question to resume the discussion that:\n1. Acknowledges the previous conversation\n2. Builds on what was already discussed\n3. Moves the conversation forward productively\n4. References specific content from their previous responses\n\nRESUMPTION QUESTION:"

/-- Fallback opening question when the opening generation fails. -/
def openingFallback : String :=
  "Tell me more about the ideas in this memo - what excites you most about developing them?"

/-- Fallback follow-up question when a follow-up generation fails. -/
def followupFallback : String :=
  "That\x27s interesting! Can you elaborate on that idea?"

/-- Fallback resumption question when the resumption generation fails. -/
def resumeFallback : String :=
  "Let\x27s continue our conversation - what would you like to explore further from our previous discussion?"

/-! ### Dialogue driver -/

/-- Classification of one input line, after `input("> ").strip()`. -/
inductive UserInput where
  | quit : UserInput
  | summary : UserInput
  | context : UserInput
  | empty : UserInput
  | answer : String → UserInput

/-- The reserved-command / empty checks of the loop body, in source order. -/
def classify (line : String) : UserInput :=
  let r := pyStrip line
  if pyLower r = "quit" then .quit
  else if pyLower r = "summary" then .summary
  else if pyLower r = "context" then .context
  else if r = "" then .empty
  else .answer r

/-- One iteration of the conversation `while True` loop, given the current
state and the most recently emitted question. `none` models the `break` on
`quit`; `summary` / `context` / empty input only print and `continue`;
any other input is recorded via `add_exchange` and a follow-up question is
generated (fixed fallback on generation failure). -/
def dialogueTurn (gen : String → Option String) (ctx : InterviewContext)
    (nowIso : String) (conv : ConversationState) (q : String) (line : String) :
    Option (ConversationState × String) :=
  match classify line with
  | .quit => none
  | .summary => some (conv, q)
  | .context => some (conv, q)
  | .empty => some (conv, q)
  | .answer user_response =>
    let conv2 := conv.add_exchange q user_response none nowIso
    let nextq := (gen (followupPrompt ctx conv2 user_response)).getD followupFallback
    some (conv2, nextq)

/-- The conversation loop over a scripted sequence of input lines. The
Bool result records whether the loop ended through `quit` (`break`); an
exhausted script models `input()` raising EOFError, which the source does
not catch. This loop is line-for-line identical in
`interactive_interview_mode` and `resume_interview_session`. -/
def interviewLoop (gen : String → Option String) (ctx : InterviewContext)
    (nowIso : String) :
    ConversationState → String → List String → ConversationState × Bool
  | conv, _, [] => (conv, false)
  | conv, q, line :: rest =>
    match dialogueTurn gen ctx nowIso conv q line with
    | none => (conv, true)
    | some (conv2, q2) => interviewLoop gen ctx nowIso conv2 q2 rest

/-- `interactive_interview_mode(memo_id)`: build the context (reporting
NotFound and creating nothing when the transcript is absent), generate the
opening question (fixed fallback on generation failure), run the loop, and
save the session after `quit`. `.error ()` models an uncaught exception
(unparsable analysis file, or EOF on input). The post-save best-effort
insights artifact is a separate non-session artifact and is not modelled.
Result: the saved session artifact (path and record), if one was written. -/
def interactive_interview_mode (st : Store) (gen : String → Option String)
    (nowStamp nowIso : String) (script : List String) (memo_id : String) :
    Except Unit (Option (String × SessionRecord)) := do
  let ctx? ← build_interview_context st memo_id
  match ctx? with
  | none => return none
  | some ctx =>
    let conv := ConversationState.create memo_id ctx nowStamp
    let opening := (gen (openingPrompt ctx)).getD openingFallback
    let res := interviewLoop gen ctx nowIso conv opening script
    if res.2 then return some (res.1.save_session nowIso) else .error ()

/-- `resume_interview_session(session_file)`: `fileRead` is the read of the
named session file (`none` = unreadable, `.error` = unparsable — both
caught, printed and returned from, producing no save). The context is
rebuilt from scratch, the stored state restored verbatim, a resumption
question generated (fixed fallback on failure), and the same loop run. -/
def resume_interview_session (st : Store) (gen : String → Option String)
    (nowIso : String) (script : List String)
    (fileRead : Option (Except Unit SessionRecord)) :
    Except Unit (Option (String × SessionRecord)) := do
  match fileRead with
  | none => return none
  | some (.error _) => return none
  | some (.ok rec) =>
    let ctx? ← build_interview_context st rec.memo_id
    match ctx? with
    | none => return none
    | some ctx =>
      let conv := restoreState rec ctx
      let opening := (gen (resumptionPrompt ctx conv)).getD resumeFallback
      let res := interviewLoop gen ctx nowIso conv opening script
      if res.2 then return some (res.1.save_session nowIso) else .error ()

/-- The process exit status of `python3 writing_assistant.py --interactive
<memo_id>`: `main` never calls `sys.exit`, so a run that returns normally
exits 0 — including the missing-transcript path — while an uncaught
exception exits 1. Paired with the session artifact written, if any. -/
def mainInteractive (st : Store) (gen : String → Option String)
    (nowStamp nowIso : String) (script : List String) (memo_id : String) :
    Nat × Option (String × SessionRecord) :=
  match interactive_interview_mode st gen nowStamp nowIso script memo_id with
  | .ok r => (0, r)
  | .error _ => (1, none)

/-! ### Concrete stores and generators used as inputs -/

/-- A store with no files at all. -/
def stEmpty : Store :=
  { transcript := fun _ => none
    analysisFile := fun _ _ => none
    memoFiles := [] }

/-- The always-failing text-generation capability. -/
def genNone : String → Option String := fun _ => none

/-- A store holding a single memo with transcript and no analysis files. -/
def stW : Store :=
  { transcript := fun id => if id = "memo_0001" then some "hello" else none
    analysisFile := fun _ _ => none
    memoFiles := ["memo_0001"] }

/-- The interview context built for `memo_0001` of `stW`. -/
def ctxW : InterviewContext :=
  { main_memo := ⟨"memo_0001", "hello", ⟨Json.obj [], Json.obj [], Json.obj [], Json.obj []⟩⟩
    related_memos := []
    writing_ideas := Json.arr []
    initial_questions := Json.arr []
    projects := Json.obj []
    tasks := Json.obj []
    personal_insights := Json.obj [] }

/-- The interview context used by the C2 counterexample state. -/
def ctxC2 : InterviewContext :=
  { main_memo := ⟨"memo_0046", "hello", ⟨Json.obj [], Json.obj [], Json.obj [], Json.obj []⟩⟩
    related_memos := []
    writing_ideas := Json.arr []
    initial_questions := Json.arr []
    projects := Json.obj []
    tasks := Json.obj []
    personal_insights := Json.obj [] }

/-- A fresh session state for the C2 counterexample. -/
def stateC2 : ConversationState :=
  ConversationState.create "memo_0046" ctxC2 "20240101_090000"

/-- A store whose `writing` analysis file for `memo_0001` exists but fails
to parse as JSON. -/
def stC3 : Store :=
  { transcript := fun id => if id = "memo_0001" then some "hello world" else none
    analysisFile := fun kind id =>
      if kind = "writing" ∧ id = "memo_0001" then some (.error ()) else none
    memoFiles := ["memo_0001"] }

/-- The `memo_0046` transcript of the C1 scenario. -/
def transcriptC1 : String :=
  "I want to write about my grandmother\x27s recipes and the stories behind them"

/-- The `writing` analysis record of the C1 scenario: it carries the field
`writing_ideas` (lowercase), exactly as written by the rest of the system
(`list_writing_ideas`, `develop_writing_idea` and `interview_mode` all read
the lowercase keys). -/
def writingC1 : Json :=
  Json.obj
    [("memo_id", Json.str "memo_0046"),
     ("writing_ideas", Json.arr [Json.str "grandmother\x27s recipes essay"]),
     ("timestamp", Json.str "2024-05-01T10:00:00")]

/-- The store of the C1 scenario. -/
def stC1 : Store :=
  { transcript := fun id => if id = "memo_0046" then some transcriptC1 else none
    analysisFile := fun kind id =>
      if kind = "writing" ∧ id = "memo_0046" then some (.ok writingC1) else none
    memoFiles := ["memo_0046"] }

/-- The context `build_interview_context` actually produces in the C1
scenario: its `writing_ideas` list is empty. -/
def ctxC1 : InterviewContext :=
  { main_memo := ⟨"memo_0046", transcriptC1, ⟨writingC1, Json.obj [], Json.obj [], Json.obj []⟩⟩
    related_memos := []
    writing_ideas := Json.arr []
    initial_questions := Json.arr []
    projects := Json.obj []
    tasks := Json.obj []
    personal_insights := Json.obj [] }

/-- C4 counterexample store: the target `memo_0001` and two candidates with
identical transcripts (hence equal similarity to the target), enumerated by
the directory scan in descending id order. -/
def stC4 : Store :=
  { transcript := fun id =>
      if id = "memo_0001" then some "alpha beta gamma delta"
      else if id = "memo_0002" then some "alpha beta gamma zeta"
      else if id = "memo_0003" then some "alpha beta gamma zeta"
      else none
    analysisFile := fun _ _ => none
    memoFiles := ["memo_0001", "memo_0003", "memo_0002"] }

/-- Loaded context of `memo_0002` in `stC4`. -/
def mcC4b : MemoContext :=
  ⟨"memo_0002", "alpha beta gamma zeta", ⟨Json.obj [], Json.obj [], Json.obj [], Json.obj []⟩⟩

/-- Loaded context of `memo_0003` in `stC4`. -/
def mcC4c : MemoContext :=
  ⟨"memo_0003", "alpha beta gamma zeta", ⟨Json.obj [], Json.obj [], Json.obj [], Json.obj []⟩⟩

/-- What `find_related_memos` returns on `stC4` for target `memo_0001`:
equal similarities, ids in the (descending) enumeration order. -/
def lC4 : List Scored :=
  [⟨"memo_0003", 3 / 5, some mcC4c⟩, ⟨"memo_0002", 3 / 5, some mcC4b⟩]

/-- A stored session record for `memo_0001`, used to exercise the resume
path. -/
def recW : SessionRecord :=
  { memo_id := "memo_0001"
    session_id := "20240101_090000"
    timestamp := "2024-01-01T09:00:00"
    conversation_history := []
    explored_topics := []
    summary_main_memo := "memo_0001"
    summary_related_ids := []
    summary_ideas_count := 0 }

/-- `line.strip().lower() == 'quit'` — the loop-terminating input. -/
def isQuitLine (l : String) : Bool := pyLower (pyStrip l) = "quit"

/-- Specification-side rendering of a conversation summary from only the
exchange count and the (already truncated) previews of the last exchanges;
used to state that `get_conversation_summary` depends on nothing else. -/
def summaryRender (memoId : String) (n : Nat) (previews : List (String × String)) :
    String :=
  if n = 0 then "No conversation yet."
  else
    "Conversation about " ++ memoId ++ " (" ++ toString n ++ " exchanges):\n" ++
      String.join (previews.enum.map (fun ip =>
        toString (ip.1 + 1) ++ ". Q: " ++ ip.2.1 ++ "...\n" ++
          "   A: " ++ ip.2.2 ++ "...\n"))

/-! ### Helper lemmas about the dialogue loop -/

/-- Each loop iteration leaves `memo_id` and `session_id` untouched. -/
theorem dialogueTurn_ids (gen : String → Option String) (ctx : InterviewContext)
    (now : String) (conv : ConversationState) (q line : String) :
    ∀ r, dialogueTurn gen ctx now conv q line = some r →
      r.1.memo_id = conv.memo_id ∧ r.1.session_id = conv.session_id := by
  intro r h
  unfold dialogueTurn at h
  cases hc : classify line <;> rw [hc] at h
  case quit => injection h
  all_goals injection h with h2; subst h2; exact ⟨rfl, rfl⟩

/-- The loop never changes `memo_id` or `session_id`. -/
theorem interviewLoop_ids (gen : String → Option String) (ctx : InterviewContext)
    (now : String) :
    ∀ (script : List String) (conv : ConversationState) (q : String),
      (interviewLoop gen ctx now conv q script).1.memo_id = conv.memo_id ∧
        (interviewLoop gen ctx now conv q script).1.session_id = conv.session_id := by
  intro script
  induction script with
  | nil => intro conv q; exact ⟨rfl, rfl⟩
  | cons line rest ih =>
    intro conv q
    unfold interviewLoop
    cases h : dialogueTurn gen ctx now conv q line with
    | none => exact ⟨rfl, rfl⟩
    | some r =>
      have hi := dialogueTurn_ids gen ctx now conv q line r h
      simpa [hi.1, hi.2] using ih r.1 r.2

/-! ### C5 -/

/-- C5: restoring from the record produced by `save_session` yields a
state with the same session id, the same ordered exchange sequence, and
the same explored-topics set, for every state, rebuilt context and save
timestamp (round-trip law). -/
theorem c5_save_restore_roundtrip (s : ConversationState)
    (rebuiltCtx : InterviewContext) (t : String) :
    (restoreState (s.save_session t).2 rebuiltCtx).session_id = s.session_id ∧
    (restoreState (s.save_session t).2 rebuiltCtx).conversation_history =
      s.conversation_history ∧
    (restoreState (s.save_session t).2 rebuiltCtx).explored_topics =
      s.explored_topics := by
  refine ⟨rfl, rfl, ?_⟩
  simp [restoreState, ConversationState.save_session, Finset.sort_toFinset]

/-! ### C2 -/

/-- C2 fails on the code: the session saved at 2024-01-01T09:05:00 and the
save of the *resumed* session at the later timestamp 2024-01-02T10:00:00
produce the *same* artifact path (the filename carries no save timestamp),
so the second save overwrites the first — the history of saves is not
append-only. -/
theorem c2_counterexample :
    ((restoreState (stateC2.save_session "2024-01-01T09:05:00").2 ctxC2).save_session
        "2024-01-02T10:00:00").1 =
      (stateC2.save_session "2024-01-01T09:05:00").1 ∧
    ("2024-01-01T09:05:00" : String) ≠ "2024-01-02T10:00:00" := by
  exact ⟨rfl, by decide⟩

/-- C2 amended: the artifact path of every save is
`{memo_id}_interactive_interview_{session_id}.json`, independent of the
save timestamp; in particular a save after a resume — even after further
exchanges — writes to exactly the path of the original save of that
logical session (an in-place update, not an append-only history). -/
theorem c2_amended (s : ConversationState) (t1 t2 : String)
    (gen : String → Option String) (ctx : InterviewContext) (now q : String)
    (script : List String) :
    (s.save_session t1).1 = (s.save_session t2).1 ∧
    (s.save_session t1).1 = sessionFileName s.memo_id s.session_id ∧
    ((interviewLoop gen ctx now (restoreState (s.save_session t1).2 ctx) q
        script).1.save_session t2).1 =
      (s.save_session t1).1 := by
  refine ⟨rfl, rfl, ?_⟩
  have h := interviewLoop_ids gen ctx now script
    (restoreState (s.save_session t1).2 ctx) q
  calc ((interviewLoop gen ctx now (restoreState (s.save_session t1).2 ctx) q
          script).1.save_session t2).1
      = sessionFileName
          (interviewLoop gen ctx now (restoreState (s.save_session t1).2 ctx) q
            script).1.memo_id
          (interviewLoop gen ctx now (restoreState (s.save_session t1).2 ctx) q
            script).1.session_id := rfl
    _ = sessionFileName (restoreState (s.save_session t1).2 ctx).memo_id
          (restoreState (s.save_session t1).2 ctx).session_id := by rw [h.1, h.2]
    _ = (s.save_session t1).1 := rfl

/-! ### C3 -/

/-- C3 fails on the code: with a readable transcript but an unparsable
`writing` analysis file, `load_memo_context` raises (only
`FileNotFoundError` is caught, not `json.JSONDecodeError`): the load does
not return a context with an empty default. -/
theorem c3_counterexample :
    load_memo_context stC3 "memo_0001" = Except.error () := rfl

/-- A non-error analysis read succeeds with some parsed (or default) value. -/
theorem loadAnalysis_ok (st : Store) (k memo_id : String)
    (hk : st.analysisFile k memo_id ≠ some (Except.error ())) :
    ∃ j, loadAnalysis st k memo_id = Except.ok j := by
  unfold loadAnalysis
  cases h : st.analysisFile k memo_id with
  | none => exact ⟨Json.obj [], rfl⟩
  | some e =>
    cases e with
    | error u => cases u; exact absurd h hk
    | ok j => exact ⟨j, rfl⟩

/-- C3 amended: an *absent* analysis file of any kind is substituted with
the empty default and the load still returns a context, but an analysis
file that exists and fails to parse makes `load_memo_context` raise. -/
theorem c3_amended (st : Store) (kind memo_id t : String)
    (habs : st.analysisFile kind memo_id = none)
    (ht : st.transcript memo_id = some t)
    (hok : ∀ k, st.analysisFile k memo_id ≠ some (Except.error ())) :
    loadAnalysis st kind memo_id = Except.ok (Json.obj []) ∧
    load_memo_context st memo_id ≠ Except.error () ∧
    load_memo_context st memo_id ≠ Except.ok none := by
  obtain ⟨jw, hw⟩ := loadAnalysis_ok st "writing" memo_id (hok "writing")
  obtain ⟨jp, hp⟩ := loadAnalysis_ok st "projects" memo_id (hok "projects")
  obtain ⟨jt, hta⟩ := loadAnalysis_ok st "tasks" memo_id (hok "tasks")
  obtain ⟨je, hpe⟩ := loadAnalysis_ok st "personal" memo_id (hok "personal")
  refine ⟨by simp [loadAnalysis, habs], ?_, ?_⟩ <;>
    simp [load_memo_context, ht, hw, hp, hta, hpe, Bind.bind, Except.bind,
      Pure.pure, Except.pure]

/-- `classify` yields the quit command exactly on a quit line. -/
theorem classify_eq_quit (l : String) :
    classify l = UserInput.quit ↔ isQuitLine l = true := by
  unfold classify isQuitLine
  by_cases h1 : pyLower (pyStrip l) = "quit"
  · simp [h1]
  · by_cases h2 : pyLower (pyStrip l) = "summary"
    · simp [h1, h2]
    · by_cases h3 : pyLower (pyStrip l) = "context"
      · simp [h1, h2, h3]
      · by_cases h4 : pyStrip l = ""
        · have e1 : pyLower "" = "" := rfl
          simp [h1, h2, h3, h4, e1]
        · simp [h1, h2, h3, h4]

/-- If the script contains a quit line, the loop terminates through
`break` (and hence the driver reaches the save step). -/
theorem interviewLoop_quits (gen : String → Option String) (ctx : InterviewContext)
    (now : String) :
    ∀ (script : List String) (conv : ConversationState) (q : String),
      script.any isQuitLine = true →
      (interviewLoop gen ctx now conv q script).2 = true := by
  intro script
  induction script with
  | nil => intro conv q h; simp at h
  | cons line rest ih =>
    intro conv q h
    unfold interviewLoop
    by_cases hq : isQuitLine line
    · have hcl : classify line = UserInput.quit := (classify_eq_quit line).mpr hq
      have : dialogueTurn gen ctx now conv q line = none := by
        unfold dialogueTurn
        rw [hcl]
      rw [this]
    · have h2 : rest.any isQuitLine = true := by
        rw [List.any_cons] at h
        simpa [hq] using h
      cases hd : dialogueTurn gen ctx now conv q line with
      | none => rfl
      | some r => exact ih r.1 r.2 h2

/-- No iteration of the loop ever adds a topic: `add_exchange` is always
called with `topic=None` in both dialogue loops. -/
theorem interviewLoop_topics (gen : String → Option String) (ctx : InterviewContext)
    (now : String) :
    ∀ (script : List String) (conv : ConversationState) (q : String),
      (interviewLoop gen ctx now conv q script).1.explored_topics =
        conv.explored_topics := by
  intro script
  induction script with
  | nil => intro conv q; rfl
  | cons line rest ih =>
    intro conv q
    unfold interviewLoop
    cases h : dialogueTurn gen ctx now conv q line with
    | none => rfl
    | some r =>
      have hr : r.1.explored_topics = conv.explored_topics := by
        unfold dialogueTurn at h
        cases hc : classify line <;> rw [hc] at h
        case quit => injection h
        all_goals injection h with h2; subst h2; rfl
      rw [ih r.1 r.2, hr]

/-! ### C7 -/

/-- C7: in each dialogue turn (the loop body is identical in the fresh and
resumed loops), an input that trims to `quit`, `summary` or `context` in
any letter case, or to the empty string, leaves the conversation history
unchanged; any other input appends exactly one Exchange whose `question`
is the most recently emitted question `q` and whose `response` is the
trimmed input. -/
theorem c7_reserved_commands (gen : String → Option String)
    (ctx : InterviewContext) (now : String) (conv : ConversationState)
    (q line : String) :
    (match dialogueTurn gen ctx now conv q line with
      | none => conv.conversation_history
      | some r => r.1.conversation_history) =
      (if pyLower (pyStrip line) = "quit" ∨ pyLower (pyStrip line) = "summary" ∨
          pyLower (pyStrip line) = "context" ∨ pyStrip line = "" then
        conv.conversation_history
      else
        conv.conversation_history ++ [⟨q, pyStrip line, none, now⟩]) := by
  by_cases h1 : pyLower (pyStrip line) = "quit"
  · simp [dialogueTurn, classify, h1]
  · by_cases h2 : pyLower (pyStrip line) = "summary"
    · simp [dialogueTurn, classify, h1, h2]
    · by_cases h3 : pyLower (pyStrip line) = "context"
      · simp [dialogueTurn, classify, h1, h2, h3]
      · by_cases h4 : pyStrip line = ""
        · have e1 : pyLower "" = "" := rfl
          simp [dialogueTurn, classify, h1, h2, h3, h4, e1]
        · simp [dialogueTurn, classify, h1, h2, h3, h4,
            ConversationState.add_exchange]

/-! ### C8 -/

/-- C8: `get_conversation_summary` is a pure function (no generation
capability in scope) whose output is determined by the memo id, the
exchange count, and the previews — first 100 characters of question and
response — of the last `min(N,3)` exchanges only; the dropped prefix of
the history cannot influence it. -/
theorem c8_summary_last_three (s : ConversationState) :
    s.get_conversation_summary =
      summaryRender s.memo_id s.conversation_history.length
        ((s.conversation_history.drop (s.conversation_history.length - 3)).map
          (fun e => (pyTake e.question 100, pyTake e.response 100))) ∧
    (s.conversation_history.drop (s.conversation_history.length - 3)).length =
      min s.conversation_history.length 3 := by
  constructor
  · by_cases h : s.conversation_history = []
    · simp [ConversationState.get_conversation_summary, summaryRender, h]
    · have hne : s.conversation_history.isEmpty = false := by
        simpa [List.isEmpty_iff] using h
      have hlen : s.conversation_history.length ≠ 0 := by
        simpa [List.length_eq_zero] using h
      unfold ConversationState.get_conversation_summary summaryRender
      rw [if_neg (by simp [hne]), if_neg (by simpa using hlen)]
      rw [List.enum_map, List.map_map]
      rfl
  · rw [List.length_drop]
    omega

/-! ### C10 -/

/-- C10: `add_exchange` is invoked with no topic tag in both loops, so the
explored-topics set never grows during a session: after any run of the
loop, a fresh session still has the empty set (and persists an empty
list), and a resumed session has exactly the set restored from the record
(and persists exactly that set). -/
theorem c10_explored_topics_constant (gen : String → Option String)
    (ctx : InterviewContext) (now stamp t q memo : String)
    (script : List String) (rec : SessionRecord) :
    (interviewLoop gen ctx now (ConversationState.create memo ctx stamp) q
        script).1.explored_topics = ∅ ∧
    ((interviewLoop gen ctx now (ConversationState.create memo ctx stamp) q
        script).1.save_session t).2.explored_topics = [] ∧
    (interviewLoop gen ctx now (restoreState rec ctx) q
        script).1.explored_topics = rec.explored_topics.toFinset ∧
    ((interviewLoop gen ctx now (restoreState rec ctx) q
        script).1.save_session t).2.explored_topics =
      rec.explored_topics.toFinset.sort (· ≤ ·) := by
  have h1 := interviewLoop_topics gen ctx now script
    (ConversationState.create memo ctx stamp) q
  have h2 := interviewLoop_topics gen ctx now script (restoreState rec ctx) q
  refine ⟨by rw [h1]; rfl, ?_, by rw [h2]; rfl, ?_⟩
  · calc ((interviewLoop gen ctx now (ConversationState.create memo ctx stamp) q
          script).1.save_session t).2.explored_topics
        = ((interviewLoop gen ctx now (ConversationState.create memo ctx stamp) q
            script).1.explored_topics).sort (· ≤ ·) := rfl
      _ = (∅ : Finset String).sort (· ≤ ·) := by rw [h1]; rfl
      _ = [] := by simp
  · calc ((interviewLoop gen ctx now (restoreState rec ctx) q
          script).1.save_session t).2.explored_topics
        = ((interviewLoop gen ctx now (restoreState rec ctx) q
            script).1.explored_topics).sort (· ≤ ·) := rfl
      _ = rec.explored_topics.toFinset.sort (· ≤ ·) := by rw [h2]; rfl

/-! ### C6 -/

/-- A fresh interview whose script reaches `quit` always completes through
the save step, whatever the generator returns. -/
theorem interactive_ok (st : Store) (gen : String → Option String)
    (stamp iso : String) (script : List String) (memo : String)
    (ctx : InterviewContext)
    (hctx : build_interview_context st memo = Except.ok (some ctx))
    (hq : script.any isQuitLine = true) :
    interactive_interview_mode st gen stamp iso script memo =
      Except.ok (some ((interviewLoop gen ctx iso
        (ConversationState.create memo ctx stamp)
        ((gen (openingPrompt ctx)).getD openingFallback)
        script).1.save_session iso)) := by
  have hflag := interviewLoop_quits gen ctx iso script
    (ConversationState.create memo ctx stamp)
    ((gen (openingPrompt ctx)).getD openingFallback) hq
  unfold interactive_interview_mode
  rw [hctx]
  simp [Bind.bind, Except.bind, Pure.pure, Except.pure, hflag]

/-- A resumed interview whose script reaches `quit` always completes
through the save step, whatever the generator returns. -/
theorem resume_ok (st : Store) (gen : String → Option String)
    (iso : String) (script : List String) (rec : SessionRecord)
    (ctx : InterviewContext)
    (hctx : build_interview_context st rec.memo_id = Except.ok (some ctx))
    (hq : script.any isQuitLine = true) :
    resume_interview_session st gen iso script (some (Except.ok rec)) =
      Except.ok (some ((interviewLoop gen ctx iso (restoreState rec ctx)
        ((gen (resumptionPrompt ctx (restoreState rec ctx))).getD resumeFallback)
        script).1.save_session iso)) := by
  have hflag := interviewLoop_quits gen ctx iso script (restoreState rec ctx)
    ((gen (resumptionPrompt ctx (restoreState rec ctx))).getD resumeFallback) hq
  unfold resume_interview_session
  dsimp only
  rw [hctx]
  simp [Bind.bind, Except.bind, Pure.pure, Except.pure, hflag]

/-- C6 fails on the code: for memo id `memo_9999` with no transcript file,
the interactive interview does report NotFound and creates no session
artifact, but the process exit status is 0 (`main` returns normally and
never calls `sys.exit`), not the non-zero status the claim requires. -/
theorem c6_counterexample :
    (mainInteractive stEmpty genNone "s" "t" ["quit"] "memo_9999").2 = none ∧
    ¬(mainInteractive stEmpty genNone "s" "t" ["quit"] "memo_9999").1 ≠ 0 :=
  ⟨rfl, fun h => h rfl⟩

/-- C6 amended: with the transcript absent the interview reports NotFound,
creates no session artifact, and the process still exits 0 (success status
even on failure); when the context builds (analyses may all be missing)
and the session is quit, the exit status is 0 and a session artifact is
produced. -/
theorem c6_amended (st : Store) (gen : String → Option String)
    (stamp iso : String) (script : List String) (memo : String) :
    (st.transcript memo = none →
      mainInteractive st gen stamp iso script memo = (0, none)) ∧
    (∀ ctx, build_interview_context st memo = Except.ok (some ctx) →
      script.any isQuitLine = true →
      (mainInteractive st gen stamp iso script memo).1 = 0 ∧
      (mainInteractive st gen stamp iso script memo).2 ≠ none) := by
  constructor
  · intro habs
    unfold mainInteractive interactive_interview_mode build_interview_context
      load_memo_context
    rw [habs]
    simp [Bind.bind, Except.bind, Pure.pure, Except.pure]
  · intro ctx hctx hq
    have h := interactive_ok st gen stamp iso script memo ctx hctx hq
    unfold mainInteractive
    rw [h]
    exact ⟨rfl, by simp⟩

/-- Closed instances of the amended C6: missing transcript gives exit 0
and no artifact; an existing transcript with all analyses missing gives
exit 0 and a saved artifact. -/
theorem c6_witness :
    mainInteractive stEmpty genNone "s" "t" ["quit"] "memo_9999" = (0, none) ∧
    (mainInteractive stW genNone "s" "t" ["quit"] "memo_0001").1 = 0 ∧
    (mainInteractive stW genNone "s" "t" ["quit"] "memo_0001").2 ≠ none := by
  refine ⟨(c6_amended stEmpty genNone "s" "t" ["quit"] "memo_9999").1 rfl, ?_, ?_⟩
  · exact ((c6_amended stW genNone "s" "t" ["quit"] "memo_0001").2 ctxW rfl rfl).1
  · exact ((c6_amended stW genNone "s" "t" ["quit"] "memo_0001").2 ctxW rfl rfl).2

/-! ### C9 -/

/-- C9: generation failure is non-fatal at every call site. For any
generator the session still persists (first and third conjuncts); with the
always-failing generator, the opening question is the fixed opening
fallback and the resumption question the fixed resumption fallback, and
the run still ends in a save (second and fourth conjuncts); inside the
loop, `dialogueTurn` substitutes the fixed follow-up fallback (it is the
`getD` default in its definition, exercised by the runs here). -/
theorem c9_generation_failure_nonfatal (st : Store)
    (gen : String → Option String) (stamp iso : String)
    (script : List String) (memo : String) (ctx : InterviewContext)
    (rec : SessionRecord)
    (hctx : build_interview_context st memo = Except.ok (some ctx))
    (hrec : rec.memo_id = memo)
    (hq : script.any isQuitLine = true) :
    (∃ pr, interactive_interview_mode st gen stamp iso script memo =
      Except.ok (some pr)) ∧
    interactive_interview_mode st genNone stamp iso script memo =
      Except.ok (some ((interviewLoop genNone ctx iso
        (ConversationState.create memo ctx stamp) openingFallback
        script).1.save_session iso)) ∧
    (∃ pr, resume_interview_session st gen iso script (some (Except.ok rec)) =
      Except.ok (some pr)) ∧
    resume_interview_session st genNone iso script (some (Except.ok rec)) =
      Except.ok (some ((interviewLoop genNone ctx iso (restoreState rec ctx)
        resumeFallback script).1.save_session iso)) := by
  have hctx2 : build_interview_context st rec.memo_id = Except.ok (some ctx) := by
    rw [hrec]; exact hctx
  refine ⟨⟨_, interactive_ok st gen stamp iso script memo ctx hctx hq⟩, ?_,
    ⟨_, resume_ok st gen iso script rec ctx hctx2 hq⟩, ?_⟩
  · exact interactive_ok st genNone stamp iso script memo ctx hctx hq
  · exact resume_ok st genNone iso script rec ctx hctx2 hq

/-- Closed instance of C9: with the always-failing generator, a fresh
session over the script `["hi", "quit"]` uses the fixed opening fallback
and still persists its session record. -/
theorem c9_witness :
    interactive_interview_mode stW genNone "s" "t" ["hi", "quit"] "memo_0001" =
      Except.ok (some ((interviewLoop genNone ctxW "t"
        (ConversationState.create "memo_0001" ctxW "s") openingFallback
        ["hi", "quit"]).1.save_session "t")) :=
  (c9_generation_failure_nonfatal stW genNone "s" "t" ["hi", "quit"]
    "memo_0001" ctxW recW rfl rfl rfl).2.1

/-! ### C1 -/

/-- The opening prompt embeds the full memo transcript verbatim. -/
theorem openingPrompt_contains_transcript (ctx : InterviewContext) :
    ∃ pre post, openingPrompt ctx = pre ++ ctx.main_memo.transcript ++ post := by
  refine ⟨"You are an AI writing coach conducting an interview to help develop writing ideas from voice memos.\n\nMEMO TRANSCRIPT:\n",
    "\n\nEXTRACTED WRITING IDEAS:\n" ++ ctx.writing_ideas.dump ++
      "\n\nINITIAL SUGGESTED QUESTIONS:\n" ++ ctx.initial_questions.dump ++
      "\n\nRELATED CONTENT:\n" ++
      String.intercalate "\n" (ctx.related_memos.map relatedLine) ++
      "\n\nGenerate an engaging opening question that:\n1. References specific content from the transcript\n2. Builds on the extracted writing ideas\n3. Is open-ended and thought-provoking\n4. Encourages the writer to expand on their ideas\n\nKeep it conversational and specific to their content. Don\x27t be generic.\n\nOPENING QUESTION:", ?_⟩
  rw [openingPrompt]
  simp only [String.append_assoc]

/-- C1 on the code as written: for `memo_0046` with the scenario transcript
and a `writing` analysis whose `writing_ideas` field is exactly
`["grandmother's recipes essay"]`, the built interview context has an
*empty* writing-ideas list — `build_interview_context` looks up the key
`WRITING_IDEAS`, not the `writing_ideas` key that the analysis record (and
every other reader in the repository) uses — while the opening prompt does
embed the transcript. -/
theorem c1_writing_ideas_key_mismatch :
    build_interview_context stC1 "memo_0046" = Except.ok (some ctxC1) ∧
    ctxC1.writing_ideas = Json.arr [] ∧
    ctxC1.writing_ideas ≠ Json.arr [Json.str "grandmother\x27s recipes essay"] ∧
    ctxC1.main_memo.analyses.writing.getD "writing_ideas" (Json.arr []) =
      Json.arr [Json.str "grandmother\x27s recipes essay"] ∧
    (∃ pre post, openingPrompt ctxC1 = pre ++ transcriptC1 ++ post) := by
  refine ⟨rfl, rfl, ?_, rfl, openingPrompt_contains_transcript ctxC1⟩
  intro hcontra
  injection hcontra with h2
  simp at h2

/-! ### C4 -/

/-- Membership in a stable descending insertion. -/
theorem mem_insertScoredDesc (x a : Scored) (l : List Scored) :
    a ∈ insertScoredDesc x l ↔ a = x ∨ a ∈ l := by
  induction l with
  | nil => simp [insertScoredDesc]
  | cons y ys ih =>
    unfold insertScoredDesc
    by_cases h : y.similarity < x.similarity
    · simp [h]
    · rw [if_neg h]
      simp only [List.mem_cons, ih]
      tauto

/-- Inserting into a descending-sorted list keeps it descending-sorted. -/
theorem pairwise_insertScoredDesc (x : Scored) (l : List Scored)
    (hl : l.Pairwise (fun a b => b.similarity ≤ a.similarity)) :
    (insertScoredDesc x l).Pairwise (fun a b => b.similarity ≤ a.similarity) := by
  induction l with
  | nil => simp [insertScoredDesc]
  | cons y ys ih =>
    rw [List.pairwise_cons] at hl
    obtain ⟨hy, hys⟩ := hl
    unfold insertScoredDesc
    by_cases h : y.similarity < x.similarity
    · rw [if_pos h]
      refine List.Pairwise.cons ?_ (List.Pairwise.cons hy hys)
      intro z hz
      rcases List.mem_cons.mp hz with rfl | hz2
      · exact le_of_lt h
      · exact le_trans (hy z hz2) (le_of_lt h)
    · rw [if_neg h]
      refine List.Pairwise.cons ?_ (ih hys)
      intro z hz
      rcases (mem_insertScoredDesc x z ys).mp hz with rfl | hz2
      · exact le_of_not_lt h
      · exact hy z hz2

/-- The stable sort produces a non-increasing similarity sequence. -/
theorem sortScoredDesc_pairwise (l : List Scored) :
    (sortScoredDesc l).Pairwise (fun a b => b.similarity ≤ a.similarity) := by
  suffices h : ∀ (acc : List Scored),
      acc.Pairwise (fun a b => b.similarity ≤ a.similarity) →
      (l.foldl (fun acc x => insertScoredDesc x acc) acc).Pairwise
        (fun a b => b.similarity ≤ a.similarity) from h [] (by simp)
  induction l with
  | nil => intro acc h; simpa using h
  | cons x xs ih =>
    intro acc h
    exact ih _ (pairwise_insertScoredDesc x acc h)

/-- The stable sort preserves the set of candidates. -/
theorem sortScoredDesc_mem (l : List Scored) (a : Scored) :
    a ∈ sortScoredDesc l ↔ a ∈ l := by
  suffices h : ∀ (acc : List Scored),
      a ∈ l.foldl (fun acc x => insertScoredDesc x acc) acc ↔ a ∈ acc ∨ a ∈ l by
    simpa using h []
  induction l with
  | nil => intro acc; simp
  | cons x xs ih =>
    intro acc
    rw [List.foldl_cons, ih, mem_insertScoredDesc]
    simp only [List.mem_cons]
    tauto

/-- Every emitted candidate is a non-target memo whose similarity exceeds
the fixed 0.1 threshold. -/
theorem candidateScores_mem (st : Store) (target : String) (w : Finset String)
    (x : Scored) (hx : x ∈ candidateScores st target w) :
    x.memo_id ≠ target ∧ 1 / 10 < x.similarity := by
  unfold candidateScores at hx
  rw [List.mem_filterMap] at hx
  obtain ⟨a, _, ha⟩ := hx
  by_cases h1 : a = target
  · rw [if_pos h1] at ha
    simp at ha
  · rw [if_neg h1] at ha
    cases ht : st.transcript a with
    | none => rw [ht] at ha; simp at ha
    | some txt =>
      rw [ht] at ha
      dsimp only at ha
      by_cases h2 : 0 < w.card ∧ 0 < (tokenSet txt).card
      · rw [if_pos h2] at ha
        by_cases h3 : 1 / 10 < jaccard w (tokenSet txt)
        · rw [if_pos h3] at ha
          cases hl : load_memo_context st a with
          | error e => rw [hl] at ha; simp at ha
          | ok c =>
            rw [hl] at ha
            injection ha with ha2
            subst ha2
            exact ⟨h1, h3⟩
        · rw [if_neg h3] at ha; simp at ha
      · rw [if_neg h2] at ha; simp at ha

/-- C4 amended: for every store, target and cap K, the similarity finder
returns at most K candidates, never the target itself, each with
similarity strictly above the code's fixed 0.1 threshold, in
non-increasing similarity order. (The ascending-memo-id tie-break of the
original claim does not hold — see the counterexample — because the list
is stable-sorted from the arbitrary directory enumeration order.) -/
theorem c4_amended (st : Store) (target : String) (K : Nat) (l : List Scored)
    (h : find_related_memos st target K = Except.ok l) :
    l.length ≤ K ∧
    (∀ x ∈ l, x.memo_id ≠ target) ∧
    (∀ x ∈ l, 1 / 10 < x.similarity) ∧
    l.Pairwise (fun a b => b.similarity ≤ a.similarity) := by
  unfold find_related_memos at h
  cases hl : load_memo_context st target with
  | error e =>
    rw [hl] at h
    simp [Bind.bind, Except.bind] at h
  | ok tc? =>
    rw [hl] at h
    cases tc? with
    | none =>
      simp [Bind.bind, Except.bind, Pure.pure, Except.pure] at h
      subst h
      simp
    | some tc =>
      simp only [Bind.bind, Except.bind, Pure.pure, Except.pure] at h
      injection h with h2
      subst h2
      refine ⟨List.length_take_le K _, ?_, ?_, ?_⟩
      · intro x hx
        have hx2 : x ∈ sortScoredDesc
            (candidateScores st target (tokenSet tc.transcript)) :=
          List.mem_of_mem_take hx
        exact (candidateScores_mem st target _ x
          ((sortScoredDesc_mem _ x).mp hx2)).1
      · intro x hx
        have hx2 : x ∈ sortScoredDesc
            (candidateScores st target (tokenSet tc.transcript)) :=
          List.mem_of_mem_take hx
        exact (candidateScores_mem st target _ x
          ((sortScoredDesc_mem _ x).mp hx2)).2
      · exact (sortScoredDesc_pairwise _).sublist (List.take_sublist _ _)

/-- C4 fails as stated: on `stC4` the two candidates tie at similarity 3/5
but are returned as `memo_0003` before `memo_0002` (the stable sort keeps
the directory enumeration order), violating the ascending-memo-id
tie-break. -/
theorem c4_counterexample :
    find_related_memos stC4 "memo_0001" 3 = Except.ok lC4 ∧
    lC4.map (fun x => x.memo_id) = ["memo_0003", "memo_0002"] ∧
    lC4.map (fun x => x.similarity) = [3 / 5, 3 / 5] ∧
    ¬("memo_0003" : String) ≤ "memo_0002" := by
  refine ⟨by with_unfolding_all rfl, rfl, rfl, ?_⟩
  rw [String.le_iff_toList_le]
  decide

/-- Closed instance of the amended C4 at the `stC4` scenario. -/
theorem c4_witness :
    lC4.length ≤ 3 ∧
    lC4.Pairwise (fun a b => b.similarity ≤ a.similarity) := by
  have h := c4_amended stC4 "memo_0001" 3 lC4 (by with_unfolding_all rfl)
  exact ⟨h.1, h.2.2.2⟩

/-- Closed instance of the amended C3: with all four analysis files
absent, the writing analysis defaults to the empty record and the load
still returns a context. -/
theorem c3_witness :
    loadAnalysis stW "writing" "memo_0001" = Except.ok (Json.obj []) ∧
    load_memo_context stW "memo_0001" ≠ Except.error () ∧
    load_memo_context stW "memo_0001" ≠ Except.ok none :=
  c3_amended stW "writing" "memo_0001" "hello" rfl rfl (fun k => by simp [stW])
